import Mathlib

/-!
Verification of the `uvw` low-level utility layer (`src/uvw/util.hpp`)
against its natural-language specification.

The development shallowly embeds the two components the claims are about:

* `Flags<E>` — a type-safe bitmask wrapper over an enumeration's underlying
  integer.  The underlying integer is modelled as a `Nat` bit pattern and the
  C++ `static_cast<underlying_type_t<E>>` conversion as an explicit encoding
  function `enc : E → Nat`.
* the address-resolution helpers `details::address` (two overloads) together
  with the `IpTraits` dispatch table.  The libuv primitives `uv_ip4_addr`,
  `uv_ip4_name`, `uv_ip6_addr`, `uv_ip6_name` and the byte-order helper
  `ntohs` are external to the repository and are modelled from the spec.
-/

namespace uvw

/-- Model of `uvw::Flags<E>` (util.hpp lines 15-44): a wrapper around the
enumeration's underlying integer, modelled as a `Nat` bit pattern. -/
structure Flags (E : Type) where
  flags : Nat
deriving DecidableEq, Repr

/-- Constructor `Flags(E flag)`: stores `toInnerType(flag)`, where the
`static_cast` to the underlying type is modelled by `enc`. -/
def Flags.ofEnum {E : Type} (enc : E → Nat) (flag : E) : Flags E :=
  ⟨enc flag⟩

/-- Constructor `Flags(Type f)`: stores the raw underlying integer. -/
def Flags.ofRaw (E : Type) (f : Nat) : Flags E :=
  ⟨f⟩

/-- Default constructor `Flags()`: value-initializes the underlying integer
to zero. -/
def Flags.empty (E : Type) : Flags E :=
  ⟨0⟩

/-- Operator `Flags operator|(const Flags &f)`: bitwise OR of the stored
integers. -/
def Flags.orF {E : Type} (f g : Flags E) : Flags E :=
  ⟨f.flags ||| g.flags⟩

/-- Operator `Flags operator|(E flag)`: bitwise OR with a single enumerator's
pattern. -/
def Flags.orE {E : Type} (enc : E → Nat) (f : Flags E) (flag : E) : Flags E :=
  ⟨f.flags ||| enc flag⟩

/-- Operator `Flags operator&(const Flags &f)`: bitwise AND of the stored
integers. -/
def Flags.andF {E : Type} (f g : Flags E) : Flags E :=
  ⟨f.flags &&& g.flags⟩

/-- Operator `Flags operator&(E flag)`: bitwise AND with a single
enumerator's pattern. -/
def Flags.andE {E : Type} (enc : E → Nat) (f : Flags E) (flag : E) : Flags E :=
  ⟨f.flags &&& enc flag⟩

/-- Conversion `operator bool()`: `!(flags == InnerType{})`. -/
def Flags.toBool {E : Type} (f : Flags E) : Bool :=
  !(f.flags == 0)

/-- Conversion `operator Type()`: the raw stored integer. -/
def Flags.toRaw {E : Type} (f : Flags E) : Nat :=
  f.flags

/-- Model of `uvw::FileDescriptor` (util.hpp lines 47-56): an immutable
wrapper around a raw `uv_file` (a C `int`). -/
structure FileDescriptor where
  fd : Int
deriving DecidableEq, Repr

/-- Conversion `operator Type()`: the raw file-descriptor integer. -/
def FileDescriptor.toType (f : FileDescriptor) : Int :=
  f.fd

/-- Process-wide constant `STDIN = FileDescriptor{0}`. -/
def STDIN : FileDescriptor := ⟨0⟩

/-- Process-wide constant `STDOUT = FileDescriptor{1}`. -/
def STDOUT : FileDescriptor := ⟨1⟩

/-- Process-wide constant `STDERR = FileDescriptor{2}`. -/
def STDERR : FileDescriptor := ⟨2⟩

/-- Model of `uvw::Addr` (util.hpp line 68): a host-text / port pair. -/
structure Addr where
  ip : String
  port : Nat
deriving DecidableEq, Repr

/-- Concrete enumeration used to instantiate the generic `Flags` theorems
and to exhibit counterexamples; `NONE` has the zero bit pattern, as is
common for flag enumerations. -/
inductive TestFlag
  | NONE
  | ONE
  | TWO
deriving DecidableEq, Repr

/-- Underlying-integer encoding of `TestFlag`. -/
def testEnc : TestFlag → Nat
  | .NONE => 0
  | .ONE => 1
  | .TWO => 2

/-- Bitwise fact used for the `Flags` combinator claims:
intersecting a union with one operand gives back that operand. -/
theorem land_lor_self (x y : Nat) : (x ||| y) &&& x = x := by
  apply Nat.eq_of_testBit_eq
  intro i
  simp only [Nat.testBit_land, Nat.testBit_lor]
  cases h : x.testBit i <;> simp [h]

namespace details

/-- Address-family tags, modelling the empty structs `details::IPv4` and
`details::IPv6` (util.hpp lines 79-80) used for compile-time dispatch. -/
inductive Family
  | IPv4
  | IPv6
deriving DecidableEq, Repr

/-- Common model of the system types `sockaddr_in`, `sockaddr_in6` and
`sockaddr_storage`: an address-family discriminant, a 16-bit port value
stored in network byte order (field `sin_port` of `sockaddr_in`;
`sockaddr_in6` names the same 16-bit slot `sin6_port`), and the remaining
address bytes (4 for IPv4, 16 for IPv6). -/
structure SockAddr where
  sin_family : Nat
  sin_port : Nat
  payload : List Nat
deriving DecidableEq, Repr

/-- Numeric value of `AF_INET`. -/
def AF_INET : Nat := 2

/-- Numeric value of `AF_INET6` (Linux). -/
def AF_INET6 : Nat := 10

/-- Modelled from the spec: `ntohs`, conversion of a 16-bit value from
network byte order to host byte order, on a little-endian host (the byte
swap); values wider than 16 bits are truncated first, as the C cast does. -/
def ntohs (n : Nat) : Nat :=
  (n % 256) * 256 + (n / 256) % 256

/-- Modelled from the spec: `htons`, host to network byte order for 16-bit
values; on a little-endian host the same byte swap as `ntohs`. -/
def htons (n : Nat) : Nat :=
  ntohs n

/-- Decimal digit value of a character, or `none` when it is not a digit. -/
def digitVal (c : Char) : Option Nat :=
  if c.isDigit then some (c.toNat - 48) else none

/-- Hexadecimal digit value of a character, or `none`. -/
def hexVal (c : Char) : Option Nat :=
  if c.isDigit then some (c.toNat - 48)
  else if 'a' ≤ c ∧ c ≤ 'f' then some (c.toNat - 87)
  else if 'A' ≤ c ∧ c ≤ 'F' then some (c.toNat - 55)
  else none

/-- Splits a character list on a separator character; a list with no
separator yields one group, and separators at the ends yield empty groups. -/
def splitOnChar (sep : Char) : List Char → List (List Char)
  | [] => [[]]
  | c :: rest =>
    match splitOnChar sep rest with
    | [] => [[]]
    | g :: gs => if c = sep then [] :: g :: gs else (c :: g) :: gs

/-- Parses one dotted-quad octet: one to three decimal digits, value at most
255, no leading zero (matching `inet_pton` strictness). -/
def parseOctet (cs : List Char) : Option Nat :=
  match cs.mapM digitVal with
  | none => none
  | some ds =>
    if ds.length = 0 ∨ 3 < ds.length then none
    else if 1 < ds.length ∧ ds.headD 1 = 0 then none
    else
      let v := ds.foldl (fun a d => a * 10 + d) 0
      if v ≤ 255 then some v else none

/-- Parses an IPv4 dotted-quad text into its four octets. -/
def ip4Bytes (cs : List Char) : Option (List Nat) :=
  let parts := splitOnChar '.' cs
  if parts.length = 4 then parts.mapM parseOctet else none

/-- Renders a natural number in decimal. -/
def decStr (n : Nat) : String :=
  String.mk (Nat.toDigits 10 n)

/-- Joins strings with a dot separator. -/
def joinDot : List String → String
  | [] => ""
  | [s] => s
  | s :: rest => s ++ "." ++ joinDot rest

/-- Renders four address bytes as dotted-quad text. -/
def ip4Text (bytes : List Nat) : String :=
  joinDot (bytes.map decStr)

/-- Parses one IPv6 hexadecimal group: one to four hex digits. -/
def parseHexGroup (cs : List Char) : Option Nat :=
  match cs.mapM hexVal with
  | none => none
  | some ds =>
    if ds.length = 0 ∨ 4 < ds.length then none
    else some (ds.foldl (fun a d => a * 16 + d) 0)

/-- Finds the first occurrence of a double colon, returning the characters
before and after it. -/
def breakDoubleColon : List Char → Option (List Char × List Char)
  | [] => none
  | ':' :: ':' :: rest => some ([], rest)
  | c :: rest =>
    match breakDoubleColon rest with
    | none => none
    | some (l, r) => some (c :: l, r)

/-- Parses a colon-separated run of hex groups; the empty text stands for no
groups at all (one side of a double colon). -/
def parseGroups (cs : List Char) : Option (List Nat) :=
  match cs with
  | [] => some []
  | _ => (splitOnChar ':' cs).mapM parseHexGroup

/-- Parses IPv6 text into its eight 16-bit words, expanding at most one
double colon (embedded dotted-quad suffixes are not modelled). -/
def ip6Words (cs : List Char) : Option (List Nat) :=
  match breakDoubleColon cs with
  | none =>
    match parseGroups cs with
    | none => none
    | some ws => if ws.length = 8 then some ws else none
  | some (l, r) =>
    if (breakDoubleColon r).isSome then none
    else
      match parseGroups l, parseGroups r with
      | some lw, some rw =>
        if lw.length + rw.length ≤ 7 then
          some (lw ++ List.replicate (8 - lw.length - rw.length) 0 ++ rw)
        else none
      | _, _ => none

/-- Flattens 16-bit words into bytes, big-endian within each word. -/
def bytesOfWords : List Nat → List Nat
  | [] => []
  | w :: rest => w / 256 % 256 :: w % 256 :: bytesOfWords rest

/-- Pairs up bytes into 16-bit words, big-endian within each word. -/
def wordsOfBytes : List Nat → List Nat
  | a :: b :: rest => ((a % 256) * 256 + b % 256) :: wordsOfBytes rest
  | _ => []

/-- Length of the leading run of zero words. -/
def zeroRunLen : List Nat → Nat
  | 0 :: rest => 1 + zeroRunLen rest
  | _ => 0

/-- Start index and length of the leftmost longest run of zero words at or
after index `i`. -/
def bestZeroRun : List Nat → Nat → Nat × Nat
  | [], i => (i, 0)
  | w :: rest, i =>
    let here := zeroRunLen (w :: rest)
    let (bs, bl) := bestZeroRun rest (i + 1)
    if bl ≤ here then (i, here) else (bs, bl)

/-- Renders one 16-bit word in lowercase hexadecimal without leading
zeros. -/
def hexWord (n : Nat) : String :=
  String.mk (Nat.toDigits 16 (n % 65536))

/-- Joins strings with a colon separator. -/
def joinColon : List String → String
  | [] => ""
  | [s] => s
  | s :: rest => s ++ ":" ++ joinColon rest

/-- Renders eight 16-bit words as IPv6 text, compressing the leftmost
longest run of at least two zero words to a double colon (`inet_ntop`
style). -/
def ip6Text (ws : List Nat) : String :=
  let (s, l) := bestZeroRun ws 0
  if 2 ≤ l then
    joinColon ((ws.take s).map hexWord) ++ "::" ++
      joinColon ((ws.drop (s + l)).map hexWord)
  else joinColon (ws.map hexWord)

/-- Modelled from the spec: `uv_ip4_addr`, the IPv4 construct capability —
given host text and a port number, populate a `sockaddr_in` (family
`AF_INET`, port in network byte order, four address bytes); nonzero status
when the text is not parsable as IPv4. -/
def uv_ip4_addr (ip : String) (port : Nat) : Int × SockAddr :=
  match ip4Bytes ip.data with
  | some bytes => (0, ⟨AF_INET, htons port, bytes⟩)
  | none => (-22, ⟨AF_INET, htons port, []⟩)

/-- Modelled from the spec: `uv_ip4_name`, the IPv4 render capability —
given a populated `sockaddr_in` and a text buffer of `len` bytes, write the
dotted-quad host text; nonzero status when the text (plus its terminator)
does not fit. -/
def uv_ip4_name (aptr : SockAddr) (len : Nat) : Int × String :=
  let s := ip4Text aptr.payload
  if s.length < len then (0, s) else (-105, "")

/-- Modelled from the spec: `uv_ip6_addr`, the IPv6 construct capability —
given host text and a port number, populate a `sockaddr_in6` (family
`AF_INET6`, port in network byte order, sixteen address bytes); nonzero
status when the text is not parsable as IPv6. -/
def uv_ip6_addr (ip : String) (port : Nat) : Int × SockAddr :=
  match ip6Words ip.data with
  | some ws => (0, ⟨AF_INET6, htons port, bytesOfWords ws⟩)
  | none => (-22, ⟨AF_INET6, htons port, []⟩)

/-- Modelled from the spec: `uv_ip6_name`, the IPv6 render capability —
given a populated `sockaddr_in6` and a text buffer of `len` bytes, write the
compressed lowercase host text; nonzero status when it does not fit. -/
def uv_ip6_name (aptr : SockAddr) (len : Nat) : Int × String :=
  let s := ip6Text (wordsOfBytes aptr.payload)
  if s.length < len then (0, s) else (-105, "")

/-- Model of the `details::IpTraits` entries (util.hpp lines 83-107): the
two family-specific capabilities.  The construct capability returns the
status and the populated buffer; the render capability returns the status
and the text written. -/
structure IpTraits where
  AddrFunc : String → Nat → Int × SockAddr
  NameFunc : SockAddr → Nat → Int × String

/-- The trait table: `IpTraits<IPv4>` binds `uv_ip4_addr` / `uv_ip4_name`,
`IpTraits<IPv6>` binds `uv_ip6_addr` / `uv_ip6_name` (util.hpp lines
104-107). -/
def IpTraits.of : Family → IpTraits
  | .IPv4 => ⟨uv_ip4_addr, uv_ip4_name⟩
  | .IPv6 => ⟨uv_ip6_addr, uv_ip6_name⟩

/-- Model of `details::address(const typename Traits::Type *aptr, int len)`
(util.hpp lines 110-126): invoke the family's render capability into a text
buffer of `len` bytes; on success the result pair is the rendered text and
the byte-swapped port field of the buffer, otherwise it stays
default-initialized; the pair is then reinterpreted as an `Addr` (the
Boost/mutant idiom, modelled as field-wise construction).  The source reads
the port field as `aptr->sin_port`; for `sockaddr_in6` that field is named
`sin6_port`, and the embedding reads the modelled buffer's 16-bit port slot,
which is what both names denote. -/
def address (Traits : IpTraits) (aptr : SockAddr) (len : Nat) : Addr :=
  let r := Traits.NameFunc aptr len
  let addr : String × Nat :=
    if r.1 = 0 then (r.2, ntohs aptr.sin_port) else ("", 0)
  { ip := addr.1, port := addr.2 }

/-- Value of `sizeof(sockaddr_storage)`, the initial length handed to the
accessor. -/
def sizeof_sockaddr_storage : Nat := 128

/-- Model of `details::address(F &&f, const U *handle)` (util.hpp lines
129-143): invoke the accessor with a `sockaddr_storage` buffer and its size;
on success reinterpret the filled buffer as the tag's family layout and
delegate to the storage overload, otherwise return the default `Addr`.
The accessor returns its status, the buffer it filled and the length it
reported. -/
def addressHandle {U : Type} (Traits : IpTraits)
    (f : U → Nat → Int × SockAddr × Nat) (handle : U) : Addr :=
  let r := f handle sizeof_sockaddr_storage
  if r.1 = 0 then address Traits r.2.1 r.2.2 else { ip := "", port := 0 }

end details

/-- Accessor used to instantiate the handle-overload theorems: reports
failure (status 1) while still writing a valid IPv4 layout into the
buffer. -/
def failingAccessor : Unit → Nat → Int × details.SockAddr × Nat :=
  fun _ _ => (1, ⟨2, 36895, [127, 0, 0, 1]⟩, 16)

/-- Accessor used to instantiate the handle-overload theorems: succeeds and
fills the buffer with 10.0.0.1 port 443 (network order 47873). -/
def peerAccessor : Unit → Nat → Int × details.SockAddr × Nat :=
  fun _ _ => (0, ⟨2, 47873, [10, 0, 0, 1]⟩, 16)

/-- C1 (IPv4 side): when the IPv4 render capability succeeds on a storage
buffer, `details::address<IPv4>(aptr, len)` returns the rendered text as the
host and the buffer's port field converted from network to host byte order.
The IPv6 side of the claim is settled separately: the source reads
`aptr->sin_port` on a `sockaddr_in6`, whose port field is named `sin6_port`,
so the IPv6 instantiation is ill-formed. -/
theorem C1_ipv4_render_success (aptr : details.SockAddr) (len : Nat) (s : String)
    (h : (details.IpTraits.of details.Family.IPv4).NameFunc aptr len = (0, s)) :
    details.address (details.IpTraits.of details.Family.IPv4) aptr len =
      { ip := s, port := details.ntohs aptr.sin_port } := by
  simp [details.address, h]

/-- Witness for C1: the buffer holding 127.0.0.1 with port 8080 in network
order (36895) renders successfully and yields that text and the swapped
port. -/
theorem C1_ipv4_render_success_witness :
    (details.IpTraits.of details.Family.IPv4).NameFunc ⟨2, 36895, [127, 0, 0, 1]⟩ 16 =
      (0, "127.0.0.1") ∧
    details.address (details.IpTraits.of details.Family.IPv4) ⟨2, 36895, [127, 0, 0, 1]⟩ 16 =
      { ip := "127.0.0.1", port := details.ntohs 36895 } :=
  ⟨by decide, C1_ipv4_render_success ⟨2, 36895, [127, 0, 0, 1]⟩ 16 "127.0.0.1" (by decide)⟩

/-- C2: constructing from well-formed host text and port and then rendering
round-trips exactly — IPv4 "127.0.0.1" port 8080 and IPv6 "::1" port 443
come back unchanged as `Addr` values. -/
theorem C2_roundtrip_concrete :
    (details.uv_ip4_addr "127.0.0.1" 8080).1 = 0 ∧
    details.address (details.IpTraits.of details.Family.IPv4)
        (details.uv_ip4_addr "127.0.0.1" 8080).2 16 =
      { ip := "127.0.0.1", port := 8080 } ∧
    (details.uv_ip6_addr "::1" 443).1 = 0 ∧
    details.address (details.IpTraits.of details.Family.IPv6)
        (details.uv_ip6_addr "::1" 443).2 28 =
      { ip := "::1", port := 443 } := by
  decide

/-- C3: whenever the accessor reports a nonzero status,
`details::address<I>(f, handle)` returns the default `Addr` — empty text and
port 0 — no matter what the accessor wrote into the buffer and no matter the
family tag. -/
theorem C3_accessor_failure (i : details.Family) {U : Type}
    (f : U → Nat → Int × details.SockAddr × Nat) (handle : U)
    (h : (f handle details.sizeof_sockaddr_storage).1 ≠ 0) :
    details.addressHandle (details.IpTraits.of i) f handle = { ip := "", port := 0 } := by
  simp [details.addressHandle, h]

/-- Witness for C3: an accessor failing with status 1 while the buffer holds
a perfectly valid IPv4 layout still yields the default `Addr`. -/
theorem C3_accessor_failure_witness :
    (failingAccessor () details.sizeof_sockaddr_storage).1 ≠ 0 ∧
    details.addressHandle (details.IpTraits.of details.Family.IPv4) failingAccessor () =
      { ip := "", port := 0 } :=
  ⟨by decide, C3_accessor_failure details.Family.IPv4 failingAccessor () (by decide)⟩

/-- C4: whenever the render capability returns a nonzero status,
`details::address<I>(aptr, len)` returns the default `Addr` — in particular
the port is 0 even when the buffer's port field is nonzero. -/
theorem C4_render_failure (i : details.Family) (aptr : details.SockAddr) (len : Nat)
    (h : ((details.IpTraits.of i).NameFunc aptr len).1 ≠ 0) :
    details.address (details.IpTraits.of i) aptr len = { ip := "", port := 0 } := by
  simp [details.address, h]

/-- Witness for C4: with a zero-length text buffer the IPv4 render fails,
and the result is the default `Addr` although the buffer's port field is
nonzero. -/
theorem C4_render_failure_witness :
    (((details.IpTraits.of details.Family.IPv4).NameFunc ⟨2, 1, [127, 0, 0, 1]⟩ 0).1 ≠ 0 ∧
      (⟨2, 1, [127, 0, 0, 1]⟩ : details.SockAddr).sin_port ≠ 0) ∧
    details.address (details.IpTraits.of details.Family.IPv4) ⟨2, 1, [127, 0, 0, 1]⟩ 0 =
      { ip := "", port := 0 } :=
  ⟨⟨by decide, by decide⟩,
   C4_render_failure details.Family.IPv4 ⟨2, 1, [127, 0, 0, 1]⟩ 0 (by decide)⟩

/-- C5: on accessor success the handle overload delegates to the storage
overload of the tag's family — the interpretation is fixed by the
compile-time tag — and the result never depends on the family value the
accessor recorded in the buffer. -/
theorem C5_tag_dispatch (i : details.Family) {U : Type}
    (f : U → Nat → Int × details.SockAddr × Nat) (handle : U)
    (buf : details.SockAddr) (len : Nat)
    (h : f handle details.sizeof_sockaddr_storage = (0, buf, len)) :
    details.addressHandle (details.IpTraits.of i) f handle =
      details.address (details.IpTraits.of i) buf len ∧
    ∀ fam : Nat,
      details.address (details.IpTraits.of i) { buf with sin_family := fam } len =
        details.address (details.IpTraits.of i) buf len := by
  constructor
  · simp [details.addressHandle, h]
  · intro fam
    cases buf
    cases i <;> rfl

/-- Witness for C5: a succeeding accessor filling an IPv4 layout delegates
to the storage overload, and overwriting the recorded family (2 becomes 10)
changes nothing. -/
theorem C5_tag_dispatch_witness :
    details.addressHandle (details.IpTraits.of details.Family.IPv4) peerAccessor () =
      details.address (details.IpTraits.of details.Family.IPv4) ⟨2, 47873, [10, 0, 0, 1]⟩ 16 ∧
    details.address (details.IpTraits.of details.Family.IPv4) ⟨10, 47873, [10, 0, 0, 1]⟩ 16 =
      details.address (details.IpTraits.of details.Family.IPv4) ⟨2, 47873, [10, 0, 0, 1]⟩ 16 :=
  ⟨(C5_tag_dispatch details.Family.IPv4 peerAccessor () ⟨2, 47873, [10, 0, 0, 1]⟩ 16 rfl).1,
   (C5_tag_dispatch details.Family.IPv4 peerAccessor () ⟨2, 47873, [10, 0, 0, 1]⟩ 16 rfl).2 10⟩

/-- C6 counterexample: the claim as stated fails for an enumerator with the
zero bit pattern.  `NONE` (pattern 0) and `ONE` (pattern 1) have disjoint
patterns, yet `combine(NONE, ONE).intersect(NONE)` converts to `false`, not
`true` as the claim requires. -/
theorem C6_zero_pattern_counterexample :
    testEnc TestFlag.NONE &&& testEnc TestFlag.ONE = 0 ∧
    Flags.toBool (Flags.andE testEnc
      (Flags.orE testEnc (Flags.ofEnum testEnc TestFlag.NONE) TestFlag.ONE) TestFlag.NONE) =
      false := by
  decide

/-- C6 amended: for enumerators `a`, `b` with disjoint bit patterns and `a`
nonzero, `combine(a, b).intersect(a)` equals `Flags(a)` and converts to
true, while `intersect(a, b)` converts to false. -/
theorem C6_combine_intersect (E : Type) (enc : E → Nat) (a b : E)
    (hd : enc a &&& enc b = 0) (ha : enc a ≠ 0) :
    Flags.andE enc (Flags.orE enc (Flags.ofEnum enc a) b) a = Flags.ofEnum enc a ∧
    Flags.toBool (Flags.andE enc (Flags.orE enc (Flags.ofEnum enc a) b) a) = true ∧
    Flags.toBool (Flags.andE enc (Flags.ofEnum enc a) b) = false := by
  have key : (enc a ||| enc b) &&& enc a = enc a := land_lor_self (enc a) (enc b)
  refine ⟨?_, ?_, ?_⟩
  · simp [Flags.andE, Flags.orE, Flags.ofEnum, key]
  · simp [Flags.andE, Flags.orE, Flags.ofEnum, Flags.toBool, key, ha]
  · simp [Flags.andE, Flags.ofEnum, Flags.toBool, hd]

/-- Witness for the amended C6: `ONE` (pattern 1) and `TWO` (pattern 2) are
disjoint and nonzero, and the three conclusions hold for them. -/
theorem C6_combine_intersect_witness :
    (testEnc TestFlag.ONE &&& testEnc TestFlag.TWO = 0 ∧ testEnc TestFlag.ONE ≠ 0) ∧
    (Flags.andE testEnc (Flags.orE testEnc (Flags.ofEnum testEnc TestFlag.ONE) TestFlag.TWO)
        TestFlag.ONE = Flags.ofEnum testEnc TestFlag.ONE ∧
      Flags.toBool (Flags.andE testEnc
        (Flags.orE testEnc (Flags.ofEnum testEnc TestFlag.ONE) TestFlag.TWO) TestFlag.ONE) =
        true ∧
      Flags.toBool (Flags.andE testEnc (Flags.ofEnum testEnc TestFlag.ONE) TestFlag.TWO) =
        false) :=
  ⟨⟨by decide, by decide⟩,
   C6_combine_intersect TestFlag testEnc TestFlag.ONE TestFlag.TWO (by decide) (by decide)⟩

/-- C7: the boolean conversion is true exactly when the stored integer is
nonzero; in particular the default `Flags()` converts to false and
`Flags(a)` for an enumerator with a nonzero pattern converts to true. -/
theorem C7_bool_iff_nonzero (E : Type) (enc : E → Nat) (f : Flags E) :
    (Flags.toBool f = true ↔ f.flags ≠ 0) ∧
    Flags.toBool (Flags.empty E) = false ∧
    ∀ a : E, enc a ≠ 0 → Flags.toBool (Flags.ofEnum enc a) = true := by
  refine ⟨?_, ?_, ?_⟩
  · simp [Flags.toBool]
  · simp [Flags.toBool, Flags.empty]
  · intro a ha
    simp [Flags.toBool, Flags.ofEnum, ha]

/-- Witness for C7: instantiated at the concrete enumeration — `Flags(ONE)`
converts to true and the default converts to false. -/
theorem C7_bool_iff_nonzero_witness :
    Flags.toBool (Flags.ofEnum testEnc TestFlag.ONE) = true ∧
    Flags.toBool (Flags.empty TestFlag) = false :=
  ⟨(C7_bool_iff_nonzero TestFlag testEnc (Flags.ofEnum testEnc TestFlag.ONE)).2.2
      TestFlag.ONE (by decide),
   (C7_bool_iff_nonzero TestFlag testEnc (Flags.empty TestFlag)).2.1⟩

/-- C8: extracting the raw underlying integer and reconstructing a `Flags`
from it yields the same value. -/
theorem C8_raw_roundtrip (E : Type) (f : Flags E) :
    Flags.ofRaw E (Flags.toRaw f) = f :=
  rfl

/-- C9: the empty flag set is an identity for combine and an annihilator
for intersect. -/
theorem C9_empty_identity (E : Type) (f : Flags E) :
    Flags.orF f (Flags.empty E) = f ∧ Flags.andF f (Flags.empty E) = Flags.empty E := by
  cases f
  constructor <;> simp [Flags.orF, Flags.andF, Flags.empty]

/-- C10: the three standard-stream constants convert back to the raw
file-descriptor integers 0, 1 and 2. -/
theorem C10_standard_streams :
    STDIN.toType = 0 ∧ STDOUT.toType = 1 ∧ STDERR.toType = 2 := by
  decide

end uvw

